import Mathlib

/-!
Shallow embedding of the vehicle-rental management API (controllers for
rentals, vehicles, customers and maintenances, together with the relevant
Sequelize model constraints), with theorems checking the specification
claims against it.

Modelling conventions:
* timestamps are integers (milliseconds since the epoch, as JavaScript
  Date arithmetic produces);
* monetary amounts are rationals (the source computes with JavaScript
  numbers; the fixed 19 percent tax and the 1.5 late-fee factor are exact);
* a database is a record of lists standing for the tables touched by the
  claims; a handler returns its HTTP outcome together with the new
  database state;
* Sequelize `create` runs the model-level validators; a validation
  failure surfaces as the 500 response produced by the catch-all handler
  in the controllers.
-/

set_option maxHeartbeats 1000000

namespace RentAuto

/-- Vehicle status enumeration from the Vehicle model. -/
inductive VStatus where
  | available
  | rented
  | maintenance
  | inactive
deriving DecidableEq

/-- Rental status enumeration from the Rental model. -/
inductive RStatus where
  | reserved
  | confirmed
  | active
  | completed
  | cancelled
deriving DecidableEq

/-- Maintenance status enumeration from the Maintenance model. -/
inductive MStatus where
  | scheduled
  | in_progress
  | completed
  | cancelled
  | overdue
deriving DecidableEq

/-- Maintenance priority enumeration from the Maintenance model. -/
inductive MPriority where
  | low
  | medium
  | high
  | critical
deriving DecidableEq

/-- Customer record (the fields the rental and customer controllers read). -/
structure Customer where
  id : Nat
  is_active : Bool
deriving DecidableEq

/-- Vehicle record (the fields the controllers read and write). -/
structure Vehicle where
  id : Nat
  daily_rate : Rat
  current_mileage : Int
  last_maintenance_mileage : Int
  status : VStatus
  is_active : Bool
deriving DecidableEq

/-- Rental record (the fields the controllers read and write). -/
structure Rental where
  id : Nat
  customer_id : Nat
  vehicle_id : Nat
  start_date : Int
  end_date : Int
  actual_return_date : Option Int
  daily_rate : Rat
  total_days : Int
  subtotal : Rat
  tax_amount : Rat
  additional_charges : Rat
  discount_amount : Rat
  total_amount : Rat
  rental_status : RStatus
  pickup_mileage : Option Int
  return_mileage : Option Int
deriving DecidableEq

/-- Maintenance record (the fields the controllers and hooks read and write). -/
structure Maintenance where
  id : Nat
  vehicle_id : Nat
  scheduled_date : Int
  completed_date : Option Int
  status : MStatus
  priority : MPriority
deriving DecidableEq

/-- Database state: the tables touched by the claims. -/
structure DB where
  customers : List Customer
  vehicles : List Vehicle
  rentals : List Rental
  maintenances : List Maintenance
deriving DecidableEq

/-- Outcome of a request handler: 201/200 success payload, 400 client
error, 404 not found, or the generic 500 produced by the catch block. -/
inductive ApiResult (α : Type) where
  | ok : α → ApiResult α
  | clientError : String → ApiResult α
  | notFound : String → ApiResult α
  | serverError : String → ApiResult α
deriving DecidableEq

/-- Milliseconds in a day, the divisor used by the controllers
(1000 * 60 * 60 * 24). -/
def msPerDay : Int := 86400000

/-- Math.ceil of the exact quotient a / b for integer a and positive
integer b, as computed by Math.ceil((x - y) / (1000*60*60*24)). -/
def jsCeilDiv (a b : Int) : Int := -((-a).fdiv b)

/-- findByPk on the customers table. -/
def findCustomer (db : DB) (id : Nat) : Option Customer :=
  db.customers.find? fun c => c.id == id

/-- findByPk on the vehicles table. -/
def findVehicle (db : DB) (id : Nat) : Option Vehicle :=
  db.vehicles.find? fun v => v.id == id

/-- findByPk on the rentals table. -/
def findRental (db : DB) (id : Nat) : Option Rental :=
  db.rentals.find? fun r => r.id == id

/-- findByPk on the maintenances table. -/
def findMaintenance (db : DB) (id : Nat) : Option Maintenance :=
  db.maintenances.find? fun m => m.id == id

/-- update on a vehicle row found by primary key. -/
def updateVehicleRow (vs : List Vehicle) (vid : Nat) (f : Vehicle → Vehicle) :
    List Vehicle :=
  vs.map fun v => if v.id == vid then f v else v

/-- update on a rental row found by primary key. -/
def updateRentalRow (rs : List Rental) (rid : Nat) (f : Rental → Rental) :
    List Rental :=
  rs.map fun r => if r.id == rid then f r else r

/-- update on a customer row found by primary key. -/
def updateCustomerRow (cs : List Customer) (cid : Nat) (f : Customer → Customer) :
    List Customer :=
  cs.map fun c => if c.id == cid then f c else c

/-- update on a maintenance row found by primary key. -/
def updateMaintenanceRow (ms : List Maintenance) (mid : Nat)
    (f : Maintenance → Maintenance) : List Maintenance :=
  ms.map fun m => if m.id == mid then f m else m

/-- Membership test for the status list used by the
conflict and soft-delete queries: rental_status IN
(reserved, confirmed, active). -/
def activeRentalStatus : RStatus → Bool
  | .reserved => true
  | .confirmed => true
  | .active => true
  | _ => false

/-- Overlap condition of the conflicting-rentals query in createRental:
the existing rental starts inside the requested interval (BETWEEN is
inclusive), ends inside it, or fully spans it. -/
def overlapsRequested (r : Rental) (s e : Int) : Bool :=
  (decide (s ≤ r.start_date) && decide (r.start_date ≤ e)) ||
  (decide (s ≤ r.end_date) && decide (r.end_date ≤ e)) ||
  (decide (r.start_date ≤ s) && decide (e ≤ r.end_date))

/-- Rental.count with the where clause of the conflict check in
createRental: same vehicle, status in (reserved, confirmed, active),
and date-interval overlap. -/
def conflictingRentals (rentals : List Rental) (vid : Nat) (s e : Int) : Nat :=
  rentals.countP fun r =>
    r.vehicle_id == vid && activeRentalStatus r.rental_status &&
      overlapsRequested r s e

/-- Validator min 0 on a nullable integer column (pickup_mileage and
return_mileage in the Rental model). -/
def optNonneg : Option Int → Bool
  | none => true
  | some m => decide (0 ≤ m)

/-- Model-level validators of the Rental model that Sequelize runs when
an instance is saved, on create and on update alike: daily_rate min 0,
total_days min 1, subtotal min 0, tax_amount min 0, additional_charges
min 0, discount_amount min 0, total_amount min 0, pickup_mileage min 0,
return_mileage min 0. -/
def rentalValid (r : Rental) : Bool :=
  decide (0 ≤ r.daily_rate ∧ 1 ≤ r.total_days ∧ 0 ≤ r.subtotal ∧
    0 ≤ r.tax_amount ∧ 0 ≤ r.additional_charges ∧ 0 ≤ r.discount_amount ∧
    0 ≤ r.total_amount) &&
  optNonneg r.pickup_mileage && optNonneg r.return_mileage

/-- Request body of createRental, with the documented fields (locations
and deposit carry no logic and are omitted). -/
structure CreateRentalReq where
  customer_id : Nat
  vehicle_id : Nat
  start_date : Int
  end_date : Int
  additional_charges : Option Rat
  discount_amount : Option Rat
deriving DecidableEq

/-- Rental row assembled by createRental before Rental.create: total_days
is the ceiling of the date difference in days, the daily rate is
snapshotted from the vehicle, subtotal is total_days times the rate, tax
is 19 percent of the subtotal, and the total adds the optional extra
charges and subtracts the optional discount (both defaulting to 0);
rental_status takes the model default reserved. -/
def buildRental (req : CreateRentalReq) (vehicle : Vehicle) (newId : Nat) : Rental :=
  let totalDays := jsCeilDiv (req.end_date - req.start_date) msPerDay
  let subtotal : Rat := (totalDays : Rat) * vehicle.daily_rate
  let taxAmount : Rat := subtotal * (19 / 100)
  let addl : Rat := req.additional_charges.getD 0
  let disc : Rat := req.discount_amount.getD 0
  { id := newId
    customer_id := req.customer_id
    vehicle_id := req.vehicle_id
    start_date := req.start_date
    end_date := req.end_date
    actual_return_date := none
    daily_rate := vehicle.daily_rate
    total_days := totalDays
    subtotal := subtotal
    tax_amount := taxAmount
    additional_charges := addl
    discount_amount := disc
    total_amount := subtotal + taxAmount + addl - disc
    rental_status := .reserved
    pickup_mileage := none
    return_mileage := none }

/-- createRental from the rental controller: validate customer, validate
vehicle, count conflicting rentals, assemble the rental row, insert it
and set the vehicle status to rented; a model-validation failure inside
Rental.create is caught by the catch block and answered with the
generic 500. -/
def createRental (db : DB) (req : CreateRentalReq) (newId : Nat) :
    ApiResult Rental × DB :=
  match findCustomer db req.customer_id with
  | none => (.clientError "Cliente no encontrado o inactivo", db)
  | some customer =>
    if customer.is_active = false then
      (.clientError "Cliente no encontrado o inactivo", db)
    else
      match findVehicle db req.vehicle_id with
      | none => (.clientError "Vehiculo no disponible", db)
      | some vehicle =>
        if vehicle.is_active = false ∨ ¬ vehicle.status = VStatus.available then
          (.clientError "Vehiculo no disponible", db)
        else if 0 < conflictingRentals db.rentals req.vehicle_id
            req.start_date req.end_date then
          (.clientError "El vehiculo ya tiene reservas en las fechas seleccionadas", db)
        else
          let rental := buildRental req vehicle newId
          if rentalValid rental then
            (.ok rental,
              { db with
                  rentals := db.rentals ++ [rental]
                  vehicles := updateVehicleRow db.vehicles vehicle.id
                    fun v => { v with status := .rented } })
          else
            (.serverError "Error interno del servidor", db)

/-- Request body of updateRental restricted to the field the lifecycle
claims exercise; updateRentalValidation admits any of the five statuses. -/
structure UpdateRentalReq where
  rental_status : Option RStatus
deriving DecidableEq

/-- updateRental from the rental controller: 404 when absent, 400 when
the rental is already completed or cancelled, otherwise patch the
provided fields onto the row. -/
def updateRental (db : DB) (id : Nat) (req : UpdateRentalReq) :
    ApiResult Rental × DB :=
  match findRental db id with
  | none => (.notFound "Alquiler no encontrado", db)
  | some rental =>
    if rental.rental_status = .completed ∨ rental.rental_status = .cancelled then
      (.clientError "No se puede modificar un alquiler completado o cancelado", db)
    else
      let rental' := { rental with
        rental_status := req.rental_status.getD rental.rental_status }
      (.ok rental',
        { db with rentals := updateRentalRow db.rentals id fun _ => rental' })

/-- cancelRental from the rental controller: 404 when absent, 400 when
already completed or cancelled, otherwise set status cancelled and put
the associated vehicle back to available. -/
def cancelRental (db : DB) (id : Nat) : ApiResult Unit × DB :=
  match findRental db id with
  | none => (.notFound "Alquiler no encontrado", db)
  | some rental =>
    if rental.rental_status = .completed ∨ rental.rental_status = .cancelled then
      (.clientError "El alquiler ya esta completado o cancelado", db)
    else
      (.ok (),
        { db with
            rentals := updateRentalRow db.rentals id
              fun r => { r with rental_status := .cancelled }
            vehicles := updateVehicleRow db.vehicles rental.vehicle_id
              fun v => { v with status := .available } })

/-- startRental from the rental controller: 404 when absent, 400 unless
status is confirmed, otherwise set status active, record pickup data,
and (when a truthy pickup mileage is supplied) copy it onto the vehicle. -/
def startRental (db : DB) (id : Nat) (pickup_mileage : Option Int) :
    ApiResult Unit × DB :=
  match findRental db id with
  | none => (.notFound "Alquiler no encontrado", db)
  | some rental =>
    if ¬ rental.rental_status = .confirmed then
      (.clientError "El alquiler debe estar confirmado para iniciar", db)
    else
      (.ok (),
        { db with
            rentals := updateRentalRow db.rentals id
              fun r => { r with
                rental_status := .active
                pickup_mileage := pickup_mileage }
            vehicles :=
              match pickup_mileage with
              | some m =>
                if m = 0 then db.vehicles
                else updateVehicleRow db.vehicles rental.vehicle_id
                  fun v => { v with current_mileage := m }
              | none => db.vehicles })

/-- Request body of completeRental (fuel level and damage notes carry no
logic and are omitted). -/
structure CompleteRentalReq where
  return_mileage : Option Int
  additional_charges : Option Rat
  actual_return_date : Option Int
deriving DecidableEq

/-- Late fee computed by completeRental: when the return date exceeds
the scheduled end date, the fee is ceil(lateness in days) times the
daily rate times 1.5, otherwise 0. -/
def lateFeeFor (r : Rental) (returnDate : Int) : Rat :=
  if r.end_date < returnDate then
    (jsCeilDiv (returnDate - r.end_date) msPerDay : Rat) * r.daily_rate * (3 / 2)
  else 0

/-- Field patch persisted on the rental row by completeRental: status
completed, the actual return date, the supplied return mileage, and the
recomputed additional charges and total. -/
def completeRentalPatch (req : CompleteRentalReq) (now : Int) (found : Rental)
    (x : Rental) : Rental :=
  { x with
      rental_status := .completed
      actual_return_date := some (req.actual_return_date.getD now)
      return_mileage := req.return_mileage
      additional_charges := req.additional_charges.getD 0 +
        lateFeeFor found (req.actual_return_date.getD now)
      total_amount := found.subtotal + found.tax_amount +
        (req.additional_charges.getD 0 +
          lateFeeFor found (req.actual_return_date.getD now)) -
        found.discount_amount }

/-- Vehicle update performed by completeRental: status goes back to
available and the mileage is replaced by the return mileage exactly when
that value is truthy (present and nonzero). -/
def completeVehiclePatch (req : CompleteRentalReq) (v : Vehicle) : Vehicle :=
  { v with
      status := .available
      current_mileage :=
        match req.return_mileage with
        | some m => if m = 0 then v.current_mileage else m
        | none => v.current_mileage }

/-- completeRental from the rental controller: 404 when absent, 400
unless status is active; otherwise the return date defaults to now, a
late fee accrues when the return date exceeds the scheduled end date,
additional charges and the total are recomputed, the rental becomes
completed, and the vehicle becomes available with its mileage set to
the return mileage when that value is truthy. rental.update runs the
model validators on the patched row; a validation failure (for example
a recomputed total_amount below 0) is caught by the catch block and
answered with the generic 500, before the vehicle is touched. -/
def completeRental (db : DB) (id : Nat) (req : CompleteRentalReq) (now : Int) :
    ApiResult (Rat × Rat × Rat) × DB :=
  match findRental db id with
  | none => (.notFound "Alquiler no encontrado", db)
  | some rental =>
    if ¬ rental.rental_status = .active then
      (.clientError "El alquiler debe estar activo para completar", db)
    else
      let returnDate := req.actual_return_date.getD now
      let lateFees : Rat := lateFeeFor rental returnDate
      let totalAdditionalCharges : Rat := req.additional_charges.getD 0 + lateFees
      let newTotalAmount : Rat :=
        rental.subtotal + rental.tax_amount + totalAdditionalCharges -
          rental.discount_amount
      if rentalValid (completeRentalPatch req now rental rental) then
        (.ok (lateFees, totalAdditionalCharges, newTotalAmount),
          { db with
              rentals := updateRentalRow db.rentals id
                (completeRentalPatch req now rental)
              vehicles := updateVehicleRow db.vehicles rental.vehicle_id
                (completeVehiclePatch req) })
      else
        (.serverError "Error interno del servidor", db)

/-- deleteCustomer from the customer controller: 404 when absent, 400
when the customer has any rental in (reserved, confirmed, active),
otherwise soft delete by clearing is_active. -/
def deleteCustomer (db : DB) (id : Nat) : ApiResult Unit × DB :=
  match findCustomer db id with
  | none => (.notFound "Cliente no encontrado", db)
  | some _ =>
    if 0 < db.rentals.countP
        (fun r => r.customer_id == id && activeRentalStatus r.rental_status) then
      (.clientError "No se puede eliminar un cliente con alquileres activos", db)
    else
      let customers' := updateCustomerRow db.customers id
        fun c => { c with is_active := false }
      (.ok (), { db with customers := customers' })

/-- deleteVehicle from the vehicle controller: 404 when absent, 400 when
the vehicle has any rental in (reserved, confirmed, active), otherwise
soft delete by clearing is_active and setting status inactive. -/
def deleteVehicle (db : DB) (id : Nat) : ApiResult Unit × DB :=
  match findVehicle db id with
  | none => (.notFound "Vehiculo no encontrado", db)
  | some _ =>
    if 0 < db.rentals.countP
        (fun r => r.vehicle_id == id && activeRentalStatus r.rental_status) then
      (.clientError "No se puede eliminar un vehiculo con alquileres activos", db)
    else
      let vehicles' := updateVehicleRow db.vehicles id
        fun v => { v with is_active := false, status := .inactive }
      (.ok (), { db with vehicles := vehicles' })

/-- updateMileage from the vehicle controller: 404 when absent, 400 when
the supplied mileage is below the stored one, otherwise store it. -/
def updateMileage (db : DB) (id : Nat) (current_mileage : Int) :
    ApiResult Unit × DB :=
  match findVehicle db id with
  | none => (.notFound "Vehiculo no encontrado", db)
  | some v =>
    if current_mileage < v.current_mileage then
      (.clientError "El kilometraje no puede ser menor al actual", db)
    else
      let vehicles' := updateVehicleRow db.vehicles v.id
        fun w => { w with current_mileage := current_mileage }
      (.ok (), { db with vehicles := vehicles' })

/-- Request body of createMaintenance restricted to the fields the claims
exercise; status and priority default as in the Maintenance model. -/
structure CreateMaintenanceReq where
  vehicle_id : Nat
  scheduled_date : Int
  status : Option MStatus
  priority : Option MPriority
deriving DecidableEq

/-- Maintenance row assembled by createMaintenance: status defaults to
scheduled and priority to medium, as in the Maintenance model. -/
def buildMaintenance (req : CreateMaintenanceReq) (newId : Nat) : Maintenance :=
  { id := newId
    vehicle_id := req.vehicle_id
    scheduled_date := req.scheduled_date
    completed_date := none
    status := req.status.getD .scheduled
    priority := req.priority.getD .medium }

/-- createMaintenance from the maintenance controller: 400 when the
vehicle is absent or inactive; otherwise insert the record (status
defaults to scheduled, priority to medium) and, exactly when the created
record has priority critical and status scheduled, set the vehicle
status to maintenance. -/
def createMaintenance (db : DB) (req : CreateMaintenanceReq) (newId : Nat) :
    ApiResult Maintenance × DB :=
  match findVehicle db req.vehicle_id with
  | none => (.clientError "Vehiculo no encontrado o inactivo", db)
  | some vehicle =>
    if vehicle.is_active = false then
      (.clientError "Vehiculo no encontrado o inactivo", db)
    else
      let m : Maintenance := buildMaintenance req newId
      let db1 := { db with maintenances := db.maintenances ++ [m] }
      if m.priority = .critical ∧ m.status = .scheduled then
        let vehicles' := updateVehicleRow db1.vehicles vehicle.id
          fun v => { v with status := .maintenance }
        (.ok m, { db1 with vehicles := vehicles' })
      else
        (.ok m, db1)

/-- beforeUpdate hook of the Maintenance model: when a completion date is
set the status becomes completed; otherwise, when the scheduled date is
strictly before today and the status is still scheduled, it becomes
overdue. -/
def maintenanceBeforeUpdate (m : Maintenance) (today : Int) : Maintenance :=
  if m.completed_date.isSome then
    { m with status := .completed }
  else if m.scheduled_date < today ∧ m.status = .scheduled then
    { m with status := .overdue }
  else
    m

/-- Request body of updateMaintenance restricted to the fields the claims
exercise. -/
structure UpdateMaintenanceReq where
  status : Option MStatus
  scheduled_date : Option Int
  mileage_at_maintenance : Option Int
deriving DecidableEq

/-- Patch applied by updateMaintenance to the stored maintenance row:
the provided fields overwrite the stored ones, and a transition into
status completed stamps the completion date with the current time. -/
def patchMaintenance (m : Maintenance) (req : UpdateMaintenanceReq) (now : Int) :
    Maintenance :=
  { m with
      status := req.status.getD m.status
      scheduled_date := req.scheduled_date.getD m.scheduled_date
      completed_date :=
        if req.status = some MStatus.completed ∧ ¬ m.status = MStatus.completed then
          some now
        else m.completed_date }

/-- updateMaintenance from the maintenance controller: 404 when absent;
when the body moves the record into status completed the completion date
is stamped, a vehicle sitting in maintenance goes back to available, and
a truthy supplied mileage is copied onto the vehicle; the patched row is
persisted through the beforeUpdate hook of the Maintenance model. -/
def updateMaintenance (db : DB) (id : Nat) (req : UpdateMaintenanceReq) (now : Int) :
    ApiResult Unit × DB :=
  match findMaintenance db id with
  | none => (.notFound "Mantenimiento no encontrado", db)
  | some m =>
    let completing := req.status = some MStatus.completed ∧ ¬ m.status = MStatus.completed
    let vehicles1 :=
      if completing then
        match findVehicle db m.vehicle_id with
        | some v =>
          if v.status = VStatus.maintenance then
            updateVehicleRow db.vehicles m.vehicle_id
              fun w => { w with status := .available }
          else db.vehicles
        | none => db.vehicles
      else db.vehicles
    let vehicles2 :=
      if completing then
        match req.mileage_at_maintenance with
        | some k =>
          if k = 0 then vehicles1
          else updateVehicleRow vehicles1 m.vehicle_id
            fun w => { w with current_mileage := k, last_maintenance_mileage := k }
        | none => vehicles1
      else vehicles1
    let maintenances' := updateMaintenanceRow db.maintenances id
      fun x => maintenanceBeforeUpdate (patchMaintenance x req now) now
    (.ok (), { db with maintenances := maintenances', vehicles := vehicles2 })

/-! Helper lemmas. -/

theorem one_le_jsCeilDiv {a b : Int} (ha : 0 < a) (hb : 0 < b) :
    1 ≤ jsCeilDiv a b := by
  have h := Int.fdiv_neg' (a := -a) (b := b) (by omega) hb
  unfold jsCeilDiv
  omega

theorem jsCeilDiv_nonpos {a b : Int} (ha : a ≤ 0) (hb : 0 ≤ b) :
    jsCeilDiv a b ≤ 0 := by
  have h := Int.fdiv_nonneg (a := -a) (b := b) (by omega) hb
  unfold jsCeilDiv
  omega

theorem find?_map_key {α : Type} (key : α → Nat) (xs : List α) (k : Nat)
    (f : α → α) (hf : ∀ x, key (f x) = key x) :
    (xs.map fun x => if key x == k then f x else x).find? (fun x => key x == k) =
      (xs.find? fun x => key x == k).map f := by
  induction xs with
  | nil => rfl
  | cons x xs ih =>
    by_cases h : key x = k
    · rw [List.map_cons, if_pos (by simpa using h),
        List.find?_cons_of_pos _ (by simpa [hf] using h),
        List.find?_cons_of_pos _ (by simpa using h)]
      rfl
    · rw [List.map_cons, if_neg (by simpa using h),
        List.find?_cons_of_neg _ (by simpa using h),
        List.find?_cons_of_neg _ (by simpa using h)]
      exact ih

theorem find?_key_unique {α : Type} (key : α → Nat) (xs : List α) (k : Nat)
    (r : α) (hfind : xs.find? (fun x => key x == k) = some r)
    (hnodup : xs.Pairwise fun a b => key a ≠ key b) :
    ∀ x ∈ xs, key x = k → x = r := by
  induction xs with
  | nil => simp at hfind
  | cons y ys ih =>
    rw [List.pairwise_cons] at hnodup
    intro x hx hxk
    by_cases hy : key y = k
    · rw [List.find?_cons_of_pos _ (by simpa using hy)] at hfind
      cases hfind
      rcases List.mem_cons.mp hx with heq | hx
      · rw [heq]
      · exact absurd (hxk.trans hy.symm).symm (hnodup.1 x hx)
    · rw [List.find?_cons_of_neg _ (by simpa using hy)] at hfind
      rcases List.mem_cons.mp hx with heq | hx
      · exact absurd (heq ▸ hxk) hy
      · exact ih hfind hnodup.2 x hx hxk

theorem findCustomer_id {db : DB} {id : Nat} {c : Customer}
    (h : findCustomer db id = some c) : c.id = id := by
  simpa using List.find?_some h

theorem findVehicle_id {db : DB} {id : Nat} {v : Vehicle}
    (h : findVehicle db id = some v) : v.id = id := by
  simpa using List.find?_some h

theorem findRental_id {db : DB} {id : Nat} {r : Rental}
    (h : findRental db id = some r) : r.id = id := by
  simpa using List.find?_some h

theorem findMaintenance_id {db : DB} {id : Nat} {m : Maintenance}
    (h : findMaintenance db id = some m) : m.id = id := by
  simpa using List.find?_some h

theorem findVehicle_updateVehicleRow (db : DB) (vs : List Vehicle) (vid : Nat)
    (f : Vehicle → Vehicle) (hdb : db.vehicles = updateVehicleRow vs vid f)
    (hf : ∀ v, (f v).id = v.id) :
    findVehicle db vid = (vs.find? fun v => v.id == vid).map f := by
  rw [findVehicle, hdb, updateVehicleRow]
  exact find?_map_key Vehicle.id vs vid f hf

theorem findRental_updateRentalRow (db : DB) (rs : List Rental) (rid : Nat)
    (f : Rental → Rental) (hdb : db.rentals = updateRentalRow rs rid f)
    (hf : ∀ r, (f r).id = r.id) :
    findRental db rid = (rs.find? fun r => r.id == rid).map f := by
  rw [findRental, hdb, updateRentalRow]
  exact find?_map_key Rental.id rs rid f hf

theorem findCustomer_updateCustomerRow (db : DB) (cs : List Customer) (cid : Nat)
    (f : Customer → Customer) (hdb : db.customers = updateCustomerRow cs cid f)
    (hf : ∀ c, (f c).id = c.id) :
    findCustomer db cid = (cs.find? fun c => c.id == cid).map f := by
  rw [findCustomer, hdb, updateCustomerRow]
  exact find?_map_key Customer.id cs cid f hf

theorem findMaintenance_updateMaintenanceRow (db : DB) (ms : List Maintenance)
    (mid : Nat) (f : Maintenance → Maintenance)
    (hdb : db.maintenances = updateMaintenanceRow ms mid f)
    (hf : ∀ m, (f m).id = m.id) :
    findMaintenance db mid = (ms.find? fun m => m.id == mid).map f := by
  rw [findMaintenance, hdb, updateMaintenanceRow]
  exact find?_map_key Maintenance.id ms mid f hf

theorem conflictingRentals_pos_iff (rs : List Rental) (vid : Nat) (s e : Int) :
    0 < conflictingRentals rs vid s e ↔
      ∃ r ∈ rs, r.vehicle_id = vid ∧ activeRentalStatus r.rental_status = true ∧
        overlapsRequested r s e = true := by
  unfold conflictingRentals
  rw [List.countP_pos_iff]
  constructor
  · rintro ⟨r, hr, hp⟩
    rw [Bool.and_eq_true, Bool.and_eq_true] at hp
    exact ⟨r, hr, by simpa using hp.1.1, hp.1.2, hp.2⟩
  · rintro ⟨r, hr, h1, h2, h3⟩
    exact ⟨r, hr, by simp [h1, h2, h3]⟩

/-! Claim C1. -/

/-- C1: for a createRental request whose customer and vehicle checks pass,
if some existing rental of the same vehicle with status reserved,
confirmed or active starts inside the requested inclusive interval, ends
inside it, or fully spans it, then createRental answers the overlap
conflict client error and leaves the whole database, rentals and vehicle
included, unchanged; and if no such rental exists the conflicting-rental
count is zero, so the conflict check passes. -/
theorem createRental_conflict_check (db : DB) (req : CreateRentalReq) (newId : Nat)
    (c : Customer) (v : Vehicle)
    (hc : findCustomer db req.customer_id = some c) (hca : c.is_active = true)
    (hv : findVehicle db req.vehicle_id = some v) (hva : v.is_active = true)
    (hvs : v.status = VStatus.available) :
    ((∃ r ∈ db.rentals, r.vehicle_id = req.vehicle_id ∧
        activeRentalStatus r.rental_status = true ∧
        overlapsRequested r req.start_date req.end_date = true) →
      createRental db req newId =
        (.clientError "El vehiculo ya tiene reservas en las fechas seleccionadas", db)) ∧
    ((¬ ∃ r ∈ db.rentals, r.vehicle_id = req.vehicle_id ∧
        activeRentalStatus r.rental_status = true ∧
        overlapsRequested r req.start_date req.end_date = true) →
      conflictingRentals db.rentals req.vehicle_id req.start_date req.end_date = 0) := by
  constructor
  · intro hex
    unfold createRental
    simp only [hc, hv, hca, hva, hvs]
    rw [if_neg (by simp)]
    rw [if_neg (by simp)]
    rw [if_pos ((conflictingRentals_pos_iff _ _ _ _).mpr hex)]
  · intro hnex
    by_contra h
    exact hnex ((conflictingRentals_pos_iff _ _ _ _).mp (Nat.pos_of_ne_zero h))

def c1Customer : Customer := { id := 1, is_active := true }

def c1Vehicle : Vehicle :=
  { id := 10, daily_rate := 50, current_mileage := 1000,
    last_maintenance_mileage := 0, status := .available, is_active := true }

def c1Rental : Rental :=
  { id := 1, customer_id := 1, vehicle_id := 10,
    start_date := 1 * 86400000, end_date := 5 * 86400000,
    actual_return_date := none, daily_rate := 50, total_days := 4,
    subtotal := 200, tax_amount := 38, additional_charges := 0,
    discount_amount := 0, total_amount := 238, rental_status := .reserved,
    pickup_mileage := none, return_mileage := none }

def c1Db : DB :=
  { customers := [c1Customer], vehicles := [c1Vehicle],
    rentals := [c1Rental], maintenances := [] }

def c1Req : CreateRentalReq :=
  { customer_id := 1, vehicle_id := 10,
    start_date := 3 * 86400000, end_date := 4 * 86400000,
    additional_charges := none, discount_amount := none }

/-- C1 witness: a second rental over days 3 to 4 is requested while the
first rental spans days 1 to 5 and is still reserved; the request is
rejected with the overlap conflict and the database is unchanged. -/
theorem createRental_conflict_check_witness :
    createRental c1Db c1Req 2 =
      (.clientError "El vehiculo ya tiene reservas en las fechas seleccionadas", c1Db) :=
  (createRental_conflict_check c1Db c1Req 2 c1Customer c1Vehicle (by decide)
    (by decide) (by decide) (by decide) (by decide)).1
    ⟨c1Rental, by decide, by decide, by decide, by decide⟩

/-! Claim C2. -/

/-- C2: a createRental request that passes the customer, vehicle and
conflict checks (and whose inputs satisfy the validation bounds, so that
Rental.create succeeds) creates exactly the rental assembled by
buildRental: total_days is the ceiling of the date difference in days,
the daily rate is snapshotted from the vehicle, subtotal equals
total_days times the rate, tax is 19 percent of the subtotal, the total
adds the defaulted extra charges and subtracts the defaulted discount,
the rental comes back with status reserved, and the vehicle status
becomes rented. -/
theorem createRental_success_computation (db : DB) (req : CreateRentalReq)
    (newId : Nat) (c : Customer) (v : Vehicle)
    (hc : findCustomer db req.customer_id = some c) (hca : c.is_active = true)
    (hv : findVehicle db req.vehicle_id = some v) (hva : v.is_active = true)
    (hvs : v.status = VStatus.available)
    (hnc : conflictingRentals db.rentals req.vehicle_id req.start_date
      req.end_date = 0)
    (hdate : req.start_date < req.end_date)
    (hrate : 0 ≤ v.daily_rate)
    (hadd : 0 ≤ req.additional_charges.getD 0)
    (hdisc : 0 ≤ req.discount_amount.getD 0)
    (hsolv : req.discount_amount.getD 0 ≤
      (jsCeilDiv (req.end_date - req.start_date) msPerDay : Rat) * v.daily_rate *
        (1 + 19 / 100) + req.additional_charges.getD 0) :
    createRental db req newId =
      (.ok (buildRental req v newId),
        { db with
            rentals := db.rentals ++ [buildRental req v newId]
            vehicles := updateVehicleRow db.vehicles v.id
              fun w => { w with status := VStatus.rented } }) ∧
    (buildRental req v newId).total_days =
      jsCeilDiv (req.end_date - req.start_date) msPerDay ∧
    (buildRental req v newId).daily_rate = v.daily_rate ∧
    (buildRental req v newId).subtotal =
      ((buildRental req v newId).total_days : Rat) * v.daily_rate ∧
    (buildRental req v newId).tax_amount =
      (buildRental req v newId).subtotal * (19 / 100) ∧
    (buildRental req v newId).total_amount =
      (buildRental req v newId).subtotal + (buildRental req v newId).tax_amount +
        req.additional_charges.getD 0 - req.discount_amount.getD 0 ∧
    (buildRental req v newId).rental_status = RStatus.reserved ∧
    (findVehicle (createRental db req newId).2 req.vehicle_id).map Vehicle.status =
      some VStatus.rented := by
  have htd : 1 ≤ jsCeilDiv (req.end_date - req.start_date) msPerDay :=
    one_le_jsCeilDiv (by omega) (by norm_num [msPerDay])
  have htdQ : (0 : Rat) ≤ (jsCeilDiv (req.end_date - req.start_date) msPerDay : Rat) := by
    exact_mod_cast (by omega : (0 : Int) ≤ jsCeilDiv (req.end_date - req.start_date) msPerDay)
  have hsub : (0 : Rat) ≤
      (jsCeilDiv (req.end_date - req.start_date) msPerDay : Rat) * v.daily_rate :=
    mul_nonneg htdQ hrate
  have hvalid : rentalValid (buildRental req v newId) = true := by
    unfold rentalValid buildRental
    rw [Bool.and_eq_true, Bool.and_eq_true, decide_eq_true_eq]
    dsimp only
    refine ⟨⟨⟨hrate, htd, hsub, mul_nonneg hsub (by norm_num), hadd, hdisc, ?_⟩,
      rfl⟩, rfl⟩
    have hring : (jsCeilDiv (req.end_date - req.start_date) msPerDay : Rat) *
        v.daily_rate * (1 + 19 / 100) =
        (jsCeilDiv (req.end_date - req.start_date) msPerDay : Rat) * v.daily_rate +
        (jsCeilDiv (req.end_date - req.start_date) msPerDay : Rat) * v.daily_rate *
          (19 / 100) := by ring
    rw [hring] at hsolv
    linarith
  have hres : createRental db req newId =
      (.ok (buildRental req v newId),
        { db with
            rentals := db.rentals ++ [buildRental req v newId]
            vehicles := updateVehicleRow db.vehicles v.id
              fun w => { w with status := VStatus.rented } }) := by
    unfold createRental
    simp only [hc, hv, hca, hva, hvs, hnc, lt_self_iff_false]
    rw [if_neg (by simp)]
    rw [if_neg (by simp)]
    rw [if_neg (by simp)]
    rw [if_pos hvalid]
  have hvid := findVehicle_id hv
  refine ⟨hres, rfl, rfl, rfl, rfl, rfl, rfl, ?_⟩
  have hdb : (createRental db req newId).2.vehicles =
      updateVehicleRow db.vehicles req.vehicle_id
        fun w => { w with status := VStatus.rented } := by
    rw [hres, ← hvid]
  rw [findVehicle_updateVehicleRow _ db.vehicles req.vehicle_id
    (fun w => { w with status := VStatus.rented }) hdb (fun w => rfl)]
  have hv' : db.vehicles.find? (fun x => x.id == req.vehicle_id) = some v := hv
  rw [hv']
  rfl

def c2Customer : Customer := { id := 1, is_active := true }

def c2Vehicle : Vehicle :=
  { id := 10, daily_rate := 50, current_mileage := 1000,
    last_maintenance_mileage := 0, status := .available, is_active := true }

def c2Db : DB :=
  { customers := [c2Customer], vehicles := [c2Vehicle],
    rentals := [], maintenances := [] }

def c2Req : CreateRentalReq :=
  { customer_id := 1, vehicle_id := 10,
    start_date := 0, end_date := 4 * 86400000,
    additional_charges := none, discount_amount := none }

/-- C2 witness: the scenario of the spec, a vehicle with daily rate 50
rented for 4 days, gives subtotal 200, tax 38, total 238, rental status
reserved, and the vehicle becomes rented. -/
theorem createRental_success_computation_witness :
    (buildRental c2Req c2Vehicle 1).subtotal = 200 ∧
    (buildRental c2Req c2Vehicle 1).tax_amount = 38 ∧
    (buildRental c2Req c2Vehicle 1).total_amount = 238 ∧
    (buildRental c2Req c2Vehicle 1).rental_status = RStatus.reserved ∧
    (createRental c2Db c2Req 1).1 = .ok (buildRental c2Req c2Vehicle 1) ∧
    (findVehicle (createRental c2Db c2Req 1).2 10).map Vehicle.status =
      some VStatus.rented := by
  have h4 : jsCeilDiv (c2Req.end_date - c2Req.start_date) msPerDay = 4 := by decide
  have h := createRental_success_computation c2Db c2Req 1 c2Customer c2Vehicle
    rfl rfl rfl rfl rfl rfl (by decide) (by norm_num [c2Vehicle])
    (by norm_num [c2Req]) (by norm_num [c2Req])
    (by rw [h4]; norm_num [c2Req, c2Vehicle])
  refine ⟨?_, ?_, ?_, rfl, by rw [h.1], h.2.2.2.2.2.2.2⟩
  · simp only [buildRental]
    rw [h4]
    norm_num [c2Vehicle]
  · simp only [buildRental]
    rw [h4]
    norm_num [c2Vehicle]
  · simp only [buildRental]
    rw [h4]
    norm_num [c2Req, c2Vehicle]

/-! Claim C6. -/

/-- C6, behavior of the code at the failing input class: when start_date
is not strictly before end_date while every other precondition holds
(customer active, vehicle active and available, no conflicting rental),
the computed total_days is at most 0, Rental.create rejects the row
through the model validator total_days min 1, and the catch block
answers the generic 500 server error instead of a 400 client error; no
rental is created and the vehicle is unchanged. -/
theorem createRental_nonpositive_duration_server_error (db : DB)
    (req : CreateRentalReq) (newId : Nat) (c : Customer) (v : Vehicle)
    (hc : findCustomer db req.customer_id = some c) (hca : c.is_active = true)
    (hv : findVehicle db req.vehicle_id = some v) (hva : v.is_active = true)
    (hvs : v.status = VStatus.available)
    (hnc : conflictingRentals db.rentals req.vehicle_id req.start_date
      req.end_date = 0)
    (hdate : req.end_date ≤ req.start_date) :
    createRental db req newId = (.serverError "Error interno del servidor", db) := by
  have htd : jsCeilDiv (req.end_date - req.start_date) msPerDay ≤ 0 :=
    jsCeilDiv_nonpos (by omega) (by norm_num [msPerDay])
  have hinvalid : rentalValid (buildRental req v newId) = false := by
    cases hb : rentalValid (buildRental req v newId) with
    | false => rfl
    | true =>
      exfalso
      unfold rentalValid buildRental at hb
      rw [Bool.and_eq_true, Bool.and_eq_true, decide_eq_true_eq] at hb
      obtain ⟨⟨⟨-, h1, -⟩, -⟩, -⟩ := hb
      dsimp only at h1
      omega
  unfold createRental
  simp only [hc, hv, hca, hva, hvs, hnc, lt_self_iff_false]
  rw [if_neg (by simp)]
  rw [if_neg (by simp)]
  rw [if_neg (by simp)]
  rw [if_neg (by simp [hinvalid])]

def c6Customer : Customer := { id := 1, is_active := true }

def c6Vehicle : Vehicle :=
  { id := 10, daily_rate := 50, current_mileage := 1000,
    last_maintenance_mileage := 0, status := .available, is_active := true }

def c6Db : DB :=
  { customers := [c6Customer], vehicles := [c6Vehicle],
    rentals := [], maintenances := [] }

def c6Req : CreateRentalReq :=
  { customer_id := 1, vehicle_id := 10,
    start_date := 4 * 86400000, end_date := 0,
    additional_charges := none, discount_amount := none }

/-- C6 witness: a request whose start date lies after its end date, with
an active customer, an available vehicle and no conflicts, ends in the
generic 500 response with the database unchanged. -/
theorem createRental_nonpositive_duration_server_error_witness :
    createRental c6Db c6Req 1 = (.serverError "Error interno del servidor", c6Db) :=
  createRental_nonpositive_duration_server_error c6Db c6Req 1 c6Customer
    c6Vehicle rfl rfl rfl rfl rfl rfl (by decide)

/-! Claim C3. -/

def c3Rental : Rental :=
  { id := 1, customer_id := 1, vehicle_id := 10,
    start_date := 0, end_date := 4 * 86400000,
    actual_return_date := none, daily_rate := 50, total_days := 4,
    subtotal := 200, tax_amount := 38, additional_charges := 0,
    discount_amount := 0, total_amount := 238, rental_status := .active,
    pickup_mileage := none, return_mileage := none }

def c3Vehicle : Vehicle :=
  { id := 10, daily_rate := 50, current_mileage := 100,
    last_maintenance_mileage := 0, status := .rented, is_active := true }

def c3Db : DB :=
  { customers := [], vehicles := [c3Vehicle],
    rentals := [c3Rental], maintenances := [] }

def c3ReqZero : CompleteRentalReq :=
  { return_mileage := some 0, additional_charges := none,
    actual_return_date := some (4 * 86400000) }

/-- C3 counterexample: completing an active rental with a supplied
return_mileage of 0 leaves the vehicle mileage at its stored value 100
instead of storing the supplied value, because the code falls back on
the stored mileage whenever return_mileage is falsy. -/
theorem completeRental_zero_mileage_cex :
    (findRental c3Db 1).map Rental.rental_status = some RStatus.active ∧
    c3ReqZero.return_mileage = some 0 ∧
    (findVehicle (completeRental c3Db 1 c3ReqZero (4 * 86400000)).2 10).map
      Vehicle.current_mileage = some 100 ∧
    ¬ (findVehicle (completeRental c3Db 1 c3ReqZero (4 * 86400000)).2 10).map
      Vehicle.current_mileage = some 0 := by
  have hr : findRental c3Db 1 = some c3Rental := rfl
  have hfee : lateFeeFor c3Rental (c3ReqZero.actual_return_date.getD
      (4 * 86400000)) = 0 := by
    unfold lateFeeFor
    rw [if_neg (by decide)]
  have hvalid : rentalValid
      (completeRentalPatch c3ReqZero (4 * 86400000) c3Rental c3Rental) = true := by
    unfold rentalValid completeRentalPatch
    rw [Bool.and_eq_true, Bool.and_eq_true, decide_eq_true_eq]
    dsimp only
    rw [hfee]
    norm_num [c3Rental, c3ReqZero, optNonneg]
  have hres : (completeRental c3Db 1 c3ReqZero (4 * 86400000)).2 =
      { c3Db with
          rentals := updateRentalRow c3Db.rentals 1
            (completeRentalPatch c3ReqZero (4 * 86400000) c3Rental)
          vehicles := updateVehicleRow c3Db.vehicles c3Rental.vehicle_id
            (completeVehiclePatch c3ReqZero) } := by
    unfold completeRental
    simp only [hr]
    rw [if_neg (by decide), if_pos hvalid]
  have h100 : (findVehicle (completeRental c3Db 1 c3ReqZero (4 * 86400000)).2 10).map
      Vehicle.current_mileage = some 100 := by
    rw [hres]
    rfl
  refine ⟨rfl, rfl, h100, ?_⟩
  rw [h100]
  simp

/-- C3 amended: completing a rental found with status active computes a
late fee of ceil(lateness in days) times the daily rate times 1.5 when
the return date (defaulting to now) exceeds the scheduled end date and 0
otherwise. When the patched row fails the model validators that
rental.update enforces (for example a recomputed total_amount below 0),
the handler answers the generic 500 and nothing changes. When the
patched row passes them, the stored additional charges become the
defaulted input charges plus the late fee, the total is recomputed as
subtotal plus tax plus the new charges minus the discount, the rental
becomes completed, and the vehicle becomes available with its mileage
set to the supplied return mileage when that value is present and
nonzero, and kept unchanged otherwise. -/
theorem completeRental_active_computation (db : DB) (id : Nat)
    (req : CompleteRentalReq) (now : Int) (r : Rental)
    (hr : findRental db id = some r) (hact : r.rental_status = RStatus.active) :
    (r.end_date < req.actual_return_date.getD now →
      lateFeeFor r (req.actual_return_date.getD now) =
        (jsCeilDiv (req.actual_return_date.getD now - r.end_date) msPerDay : Rat) *
          r.daily_rate * (3 / 2)) ∧
    (req.actual_return_date.getD now ≤ r.end_date →
      lateFeeFor r (req.actual_return_date.getD now) = 0) ∧
    (rentalValid (completeRentalPatch req now r r) = false →
      completeRental db id req now =
        (.serverError "Error interno del servidor", db)) ∧
    (rentalValid (completeRentalPatch req now r r) = true →
      findRental (completeRental db id req now).2 id = some
        { r with
            rental_status := RStatus.completed
            actual_return_date := some (req.actual_return_date.getD now)
            return_mileage := req.return_mileage
            additional_charges := req.additional_charges.getD 0 +
              lateFeeFor r (req.actual_return_date.getD now)
            total_amount := r.subtotal + r.tax_amount +
              (req.additional_charges.getD 0 +
                lateFeeFor r (req.actual_return_date.getD now)) -
              r.discount_amount } ∧
      (∀ v, findVehicle db r.vehicle_id = some v →
        findVehicle (completeRental db id req now).2 r.vehicle_id = some
          { v with
              status := VStatus.available
              current_mileage :=
                match req.return_mileage with
                | some m => if m = 0 then v.current_mileage else m
                | none => v.current_mileage })) := by
  refine ⟨?_, ?_, ?_, ?_⟩
  · intro h
    unfold lateFeeFor
    rw [if_pos h]
  · intro h
    unfold lateFeeFor
    rw [if_neg (not_lt.mpr h)]
  · intro hval
    unfold completeRental
    simp only [hr, hact]
    rw [if_neg (by simp), if_neg (by simp [hval])]
  · intro hval
    have hres : (completeRental db id req now).2 =
        { db with
            rentals := updateRentalRow db.rentals id (completeRentalPatch req now r)
            vehicles := updateVehicleRow db.vehicles r.vehicle_id
              (completeVehiclePatch req) } := by
      unfold completeRental
      simp only [hr, hact]
      rw [if_neg (by simp), if_pos hval]
    constructor
    · rw [hres]
      rw [findRental_updateRentalRow _ db.rentals id
        (completeRentalPatch req now r) rfl (fun x => rfl)]
      have hr' : db.rentals.find? (fun x => x.id == id) = some r := hr
      rw [hr']
      rfl
    · intro v hv
      rw [hres]
      rw [findVehicle_updateVehicleRow _ db.vehicles r.vehicle_id
        (completeVehiclePatch req) rfl (fun x => rfl)]
      have hv' : db.vehicles.find? (fun x => x.id == r.vehicle_id) = some v := hv
      rw [hv']
      rfl

def c3wRental : Rental :=
  { id := 1, customer_id := 1, vehicle_id := 10,
    start_date := 0, end_date := 4 * 86400000,
    actual_return_date := none, daily_rate := 50, total_days := 4,
    subtotal := 200, tax_amount := 38, additional_charges := 0,
    discount_amount := 0, total_amount := 238, rental_status := .active,
    pickup_mileage := some 1000, return_mileage := none }

def c3wVehicle : Vehicle :=
  { id := 10, daily_rate := 50, current_mileage := 1000,
    last_maintenance_mileage := 0, status := .rented, is_active := true }

def c3wDb : DB :=
  { customers := [], vehicles := [c3wVehicle],
    rentals := [c3wRental], maintenances := [] }

def c3wReq : CompleteRentalReq :=
  { return_mileage := some 1500, additional_charges := none,
    actual_return_date := none }

/-- C3 witness: the scenario of the spec, the 4-day rental at daily rate
50 returned 2 days late, accrues a late fee of 150, stores total 388,
and the vehicle becomes available with the supplied return mileage. -/
theorem completeRental_active_computation_witness :
    lateFeeFor c3wRental (6 * 86400000) = 150 ∧
    (findRental (completeRental c3wDb 1 c3wReq (6 * 86400000)).2 1).map
      Rental.total_amount = some 388 ∧
    (findVehicle (completeRental c3wDb 1 c3wReq (6 * 86400000)).2 10).map
      Vehicle.status = some VStatus.available ∧
    (findVehicle (completeRental c3wDb 1 c3wReq (6 * 86400000)).2 10).map
      Vehicle.current_mileage = some 1500 := by
  have h := completeRental_active_computation c3wDb 1 c3wReq (6 * 86400000)
    c3wRental rfl rfl
  have hfee : lateFeeFor c3wRental (c3wReq.actual_return_date.getD (6 * 86400000)) =
      150 := by
    rw [h.1 (by decide)]
    rw [show jsCeilDiv (c3wReq.actual_return_date.getD (6 * 86400000) -
      c3wRental.end_date) msPerDay = 2 from by decide]
    norm_num [c3wRental]
  have hvalid : rentalValid
      (completeRentalPatch c3wReq (6 * 86400000) c3wRental c3wRental) = true := by
    unfold rentalValid completeRentalPatch
    rw [Bool.and_eq_true, Bool.and_eq_true, decide_eq_true_eq]
    dsimp only
    rw [hfee]
    norm_num [c3wRental, c3wReq, optNonneg]
  have hsucc := h.2.2.2 hvalid
  refine ⟨hfee, ?_, ?_, ?_⟩
  · rw [hsucc.1]
    simp only [Option.map_some']
    rw [hfee]
    norm_num [c3wRental, c3wReq]
  · show (findVehicle (completeRental c3wDb 1 c3wReq (6 * 86400000)).2
      c3wRental.vehicle_id).map Vehicle.status = some VStatus.available
    rw [hsucc.2 c3wVehicle rfl]
    rfl
  · show (findVehicle (completeRental c3wDb 1 c3wReq (6 * 86400000)).2
      c3wRental.vehicle_id).map Vehicle.current_mileage = some 1500
    rw [hsucc.2 c3wVehicle rfl]
    rfl

/-! Claim C5. -/

/-- C5: on a rental whose status is already completed or cancelled, both
cancelRental and completeRental answer a 400 client error and leave the
whole database, the rental and the associated vehicle included,
unchanged. -/
theorem terminal_rental_operations_fail_without_effects (db : DB) (id : Nat)
    (r : Rental) (hr : findRental db id = some r)
    (hterm : r.rental_status = RStatus.completed ∨
      r.rental_status = RStatus.cancelled) :
    cancelRental db id =
      (.clientError "El alquiler ya esta completado o cancelado", db) ∧
    ∀ req now, completeRental db id req now =
      (.clientError "El alquiler debe estar activo para completar", db) := by
  constructor
  · unfold cancelRental
    simp only [hr]
    rw [if_pos hterm]
  · intro req now
    unfold completeRental
    simp only [hr]
    rw [if_pos (by rcases hterm with h | h <;> simp [h])]

def c5Rental : Rental :=
  { id := 1, customer_id := 1, vehicle_id := 10,
    start_date := 0, end_date := 4 * 86400000,
    actual_return_date := some (4 * 86400000), daily_rate := 50, total_days := 4,
    subtotal := 200, tax_amount := 38, additional_charges := 0,
    discount_amount := 0, total_amount := 238, rental_status := .completed,
    pickup_mileage := some 1000, return_mileage := some 1200 }

def c5Vehicle : Vehicle :=
  { id := 10, daily_rate := 50, current_mileage := 1200,
    last_maintenance_mileage := 0, status := .available, is_active := true }

def c5Db : DB :=
  { customers := [], vehicles := [c5Vehicle],
    rentals := [c5Rental], maintenances := [] }

/-- C5 witness: cancelling or completing an already completed rental
fails with a 400 client error and the database is unchanged. -/
theorem terminal_rental_operations_fail_without_effects_witness :
    cancelRental c5Db 1 =
      (.clientError "El alquiler ya esta completado o cancelado", c5Db) ∧
    completeRental c5Db 1
        { return_mileage := none, additional_charges := none,
          actual_return_date := none } 0 =
      (.clientError "El alquiler debe estar activo para completar", c5Db) := by
  have h := terminal_rental_operations_fail_without_effects c5Db 1 c5Rental rfl
    (Or.inl rfl)
  exact ⟨h.1, h.2 _ 0⟩

/-! Claim C7. -/

/-- C7: soft delete of a customer or vehicle having some rental in status
reserved, confirmed or active fails with the 400 conflict and leaves the
database unchanged; with no such rental the soft delete succeeds and the
stored record has its active flag cleared. -/
theorem soft_delete_active_rental_guard (db : DB) (id : Nat) :
    (∀ c, findCustomer db id = some c →
      ((∃ r ∈ db.rentals, r.customer_id = id ∧
          activeRentalStatus r.rental_status = true) →
        deleteCustomer db id =
          (.clientError "No se puede eliminar un cliente con alquileres activos",
            db)) ∧
      ((¬ ∃ r ∈ db.rentals, r.customer_id = id ∧
          activeRentalStatus r.rental_status = true) →
        (deleteCustomer db id).1 = .ok () ∧
        (findCustomer (deleteCustomer db id).2 id).map Customer.is_active =
          some false)) ∧
    (∀ v, findVehicle db id = some v →
      ((∃ r ∈ db.rentals, r.vehicle_id = id ∧
          activeRentalStatus r.rental_status = true) →
        deleteVehicle db id =
          (.clientError "No se puede eliminar un vehiculo con alquileres activos",
            db)) ∧
      ((¬ ∃ r ∈ db.rentals, r.vehicle_id = id ∧
          activeRentalStatus r.rental_status = true) →
        (deleteVehicle db id).1 = .ok () ∧
        (findVehicle (deleteVehicle db id).2 id).map Vehicle.is_active =
          some false)) := by
  have hcpos : (0 < db.rentals.countP fun r =>
      r.customer_id == id && activeRentalStatus r.rental_status) ↔
      ∃ r ∈ db.rentals, r.customer_id = id ∧
        activeRentalStatus r.rental_status = true := by
    rw [List.countP_pos_iff]
    constructor
    · rintro ⟨r, hrm, hp⟩
      rw [Bool.and_eq_true] at hp
      exact ⟨r, hrm, by simpa using hp.1, hp.2⟩
    · rintro ⟨r, hrm, h1, h2⟩
      exact ⟨r, hrm, by simp [h1, h2]⟩
  have hvpos : (0 < db.rentals.countP fun r =>
      r.vehicle_id == id && activeRentalStatus r.rental_status) ↔
      ∃ r ∈ db.rentals, r.vehicle_id = id ∧
        activeRentalStatus r.rental_status = true := by
    rw [List.countP_pos_iff]
    constructor
    · rintro ⟨r, hrm, hp⟩
      rw [Bool.and_eq_true] at hp
      exact ⟨r, hrm, by simpa using hp.1, hp.2⟩
    · rintro ⟨r, hrm, h1, h2⟩
      exact ⟨r, hrm, by simp [h1, h2]⟩
  constructor
  · intro c hc
    constructor
    · intro hex
      unfold deleteCustomer
      simp only [hc]
      rw [if_pos (hcpos.mpr hex)]
    · intro hnex
      have hres : deleteCustomer db id =
          (.ok (),
            { db with
                customers := updateCustomerRow db.customers id
                  fun x => { x with is_active := false } }) := by
        unfold deleteCustomer
        simp only [hc]
        rw [if_neg fun h => hnex (hcpos.mp h)]
      refine ⟨by rw [hres], ?_⟩
      rw [hres]
      rw [findCustomer_updateCustomerRow _ db.customers id
        (fun x => { x with is_active := false }) rfl (fun x => rfl)]
      have hc' : db.customers.find? (fun x => x.id == id) = some c := hc
      rw [hc']
      rfl
  · intro v hv
    constructor
    · intro hex
      unfold deleteVehicle
      simp only [hv]
      rw [if_pos (hvpos.mpr hex)]
    · intro hnex
      have hres : deleteVehicle db id =
          (.ok (),
            { db with
                vehicles := updateVehicleRow db.vehicles id
                  fun x => { x with is_active := false, status := VStatus.inactive } }) := by
        unfold deleteVehicle
        simp only [hv]
        rw [if_neg fun h => hnex (hvpos.mp h)]
      refine ⟨by rw [hres], ?_⟩
      rw [hres]
      rw [findVehicle_updateVehicleRow _ db.vehicles id
        (fun x => { x with is_active := false, status := VStatus.inactive }) rfl
        (fun x => rfl)]
      have hv' : db.vehicles.find? (fun x => x.id == id) = some v := hv
      rw [hv']
      rfl

def c7Customer : Customer := { id := 1, is_active := true }

def c7Vehicle : Vehicle :=
  { id := 10, daily_rate := 50, current_mileage := 1000,
    last_maintenance_mileage := 0, status := .rented, is_active := true }

def c7Rental : Rental :=
  { id := 1, customer_id := 1, vehicle_id := 10,
    start_date := 0, end_date := 4 * 86400000,
    actual_return_date := none, daily_rate := 50, total_days := 4,
    subtotal := 200, tax_amount := 38, additional_charges := 0,
    discount_amount := 0, total_amount := 238, rental_status := .active,
    pickup_mileage := none, return_mileage := none }

def c7Db : DB :=
  { customers := [c7Customer], vehicles := [c7Vehicle],
    rentals := [c7Rental], maintenances := [] }

def c7Db2 : DB :=
  { customers := [c7Customer], vehicles := [c7Vehicle],
    rentals := [], maintenances := [] }

/-- C7 witness: with an active rental both soft deletes are rejected and
the database is unchanged; with no rental both succeed and clear the
active flag. -/
theorem soft_delete_active_rental_guard_witness :
    deleteCustomer c7Db 1 =
      (.clientError "No se puede eliminar un cliente con alquileres activos",
        c7Db) ∧
    deleteVehicle c7Db 10 =
      (.clientError "No se puede eliminar un vehiculo con alquileres activos",
        c7Db) ∧
    (deleteCustomer c7Db2 1).1 = .ok () ∧
    (findCustomer (deleteCustomer c7Db2 1).2 1).map Customer.is_active =
      some false ∧
    (deleteVehicle c7Db2 10).1 = .ok () ∧
    (findVehicle (deleteVehicle c7Db2 10).2 10).map Vehicle.is_active =
      some false := by
  have h1 := soft_delete_active_rental_guard c7Db 1
  have h1v := soft_delete_active_rental_guard c7Db 10
  have h2 := soft_delete_active_rental_guard c7Db2 1
  have h2v := soft_delete_active_rental_guard c7Db2 10
  refine ⟨(h1.1 c7Customer rfl).1 ⟨c7Rental, by decide, rfl, rfl⟩,
    (h1v.2 c7Vehicle rfl).1 ⟨c7Rental, by decide, rfl, rfl⟩,
    ((h2.1 c7Customer rfl).2 (by simp [c7Db2])).1,
    ((h2.1 c7Customer rfl).2 (by simp [c7Db2])).2,
    ((h2v.2 c7Vehicle rfl).2 (by simp [c7Db2])).1,
    ((h2v.2 c7Vehicle rfl).2 (by simp [c7Db2])).2⟩

/-! Claim C8. -/

/-- C8: createMaintenance on an existing active vehicle sets the vehicle
status to maintenance at creation time exactly when the created record
has priority critical and status scheduled; for any other combination
the vehicles table is untouched. -/
theorem createMaintenance_critical_scheduled (db : DB)
    (req : CreateMaintenanceReq) (newId : Nat) (v : Vehicle)
    (hv : findVehicle db req.vehicle_id = some v) (hva : v.is_active = true) :
    ((buildMaintenance req newId).priority = MPriority.critical ∧
        (buildMaintenance req newId).status = MStatus.scheduled →
      (findVehicle (createMaintenance db req newId).2 req.vehicle_id).map
        Vehicle.status = some VStatus.maintenance) ∧
    (¬ ((buildMaintenance req newId).priority = MPriority.critical ∧
        (buildMaintenance req newId).status = MStatus.scheduled) →
      (createMaintenance db req newId).2.vehicles = db.vehicles) := by
  have hvid := findVehicle_id hv
  constructor
  · intro hcrit
    have hres : (createMaintenance db req newId).2 =
        { db with
            maintenances := db.maintenances ++ [buildMaintenance req newId]
            vehicles := updateVehicleRow db.vehicles req.vehicle_id
              fun w => { w with status := VStatus.maintenance } } := by
      unfold createMaintenance
      simp only [hv, hva]
      rw [if_neg (by simp), if_pos hcrit, hvid]
    rw [hres]
    rw [findVehicle_updateVehicleRow _ db.vehicles req.vehicle_id
      (fun w => { w with status := VStatus.maintenance }) rfl (fun w => rfl)]
    have hv' : db.vehicles.find? (fun x => x.id == req.vehicle_id) = some v := hv
    rw [hv']
    rfl
  · intro hncrit
    unfold createMaintenance
    simp only [hv, hva]
    rw [if_neg (by simp), if_neg hncrit]

def c8Vehicle : Vehicle :=
  { id := 10, daily_rate := 50, current_mileage := 1000,
    last_maintenance_mileage := 0, status := .available, is_active := true }

def c8Db : DB :=
  { customers := [], vehicles := [c8Vehicle],
    rentals := [], maintenances := [] }

def c8ReqCrit : CreateMaintenanceReq :=
  { vehicle_id := 10, scheduled_date := 7 * 86400000,
    status := none, priority := some .critical }

def c8ReqHigh : CreateMaintenanceReq :=
  { vehicle_id := 10, scheduled_date := 7 * 86400000,
    status := none, priority := some .high }

/-- C8 witness: creating a critical scheduled maintenance flips the
vehicle to maintenance immediately; a high-priority one leaves the
vehicles table untouched. -/
theorem createMaintenance_critical_scheduled_witness :
    (findVehicle (createMaintenance c8Db c8ReqCrit 1).2 10).map Vehicle.status =
      some VStatus.maintenance ∧
    (createMaintenance c8Db c8ReqHigh 1).2.vehicles = c8Db.vehicles := by
  refine ⟨(createMaintenance_critical_scheduled c8Db c8ReqCrit 1 c8Vehicle rfl
    rfl).1 (by decide),
    (createMaintenance_critical_scheduled c8Db c8ReqHigh 1 c8Vehicle rfl
      rfl).2 (by decide)⟩

/-! Claim C10. -/

theorem updateMileage_step_mono (db : DB) (id : Nat) (k : Int) (v : Vehicle)
    (hv : findVehicle db id = some v) :
    ∃ v', findVehicle (updateMileage db id k).2 id = some v' ∧
      v.current_mileage ≤ v'.current_mileage := by
  have hvid := findVehicle_id hv
  by_cases h : k < v.current_mileage
  · have hres : (updateMileage db id k).2 = db := by
      unfold updateMileage
      simp only [hv]
      rw [if_pos h]
    rw [hres]
    exact ⟨v, hv, le_refl _⟩
  · have hres : (updateMileage db id k).2 =
        { db with
            vehicles := updateVehicleRow db.vehicles id
              fun w => { w with current_mileage := k } } := by
      unfold updateMileage
      simp only [hv]
      rw [if_neg h, hvid]
    rw [hres]
    rw [findVehicle_updateVehicleRow _ db.vehicles id
      (fun w => { w with current_mileage := k }) rfl (fun w => rfl)]
    have hv' : db.vehicles.find? (fun x => x.id == id) = some v := hv
    rw [hv']
    exact ⟨{ v with current_mileage := k }, rfl, not_lt.mp h⟩

theorem updateMileage_foldl_mono (id : Nat) (ms : List Int) :
    ∀ db v, findVehicle db id = some v →
    ∀ v', findVehicle (ms.foldl (fun d k => (updateMileage d id k).2) db) id =
      some v' →
    v.current_mileage ≤ v'.current_mileage := by
  induction ms with
  | nil =>
    intro db v hv v' hv'
    rw [List.foldl_nil] at hv'
    rw [hv] at hv'
    injection hv' with h
    exact le_of_eq (by rw [h])
  | cons k ks ih =>
    intro db v hv v' hv'
    rw [List.foldl_cons] at hv'
    obtain ⟨w, hw, hle⟩ := updateMileage_step_mono db id k v hv
    exact le_trans hle (ih _ w hw v' hv')

/-- C10: updateMileage rejects with a 400 error and changes nothing when
the supplied mileage is strictly below the stored one, stores the
supplied value otherwise, and consequently the stored mileage is
monotonically non-decreasing across any sequence of updateMileage
calls. -/
theorem updateMileage_monotone (db : DB) (id : Nat) (v : Vehicle)
    (hv : findVehicle db id = some v) :
    (∀ m : Int, m < v.current_mileage →
      updateMileage db id m =
        (.clientError "El kilometraje no puede ser menor al actual", db)) ∧
    (∀ m : Int, v.current_mileage ≤ m →
      (updateMileage db id m).1 = .ok () ∧
      (findVehicle (updateMileage db id m).2 id).map Vehicle.current_mileage =
        some m) ∧
    (∀ ms : List Int, ∀ v',
      findVehicle (ms.foldl (fun d k => (updateMileage d id k).2) db) id =
        some v' →
      v.current_mileage ≤ v'.current_mileage) := by
  have hvid := findVehicle_id hv
  refine ⟨?_, ?_, fun ms v' h => updateMileage_foldl_mono id ms db v hv v' h⟩
  · intro m hm
    unfold updateMileage
    simp only [hv]
    rw [if_pos hm]
  · intro m hm
    have hres : updateMileage db id m =
        (.ok (),
          { db with
              vehicles := updateVehicleRow db.vehicles id
                fun w => { w with current_mileage := m } }) := by
      unfold updateMileage
      simp only [hv]
      rw [if_neg (not_lt.mpr hm), hvid]
    refine ⟨by rw [hres], ?_⟩
    rw [hres]
    rw [findVehicle_updateVehicleRow _ db.vehicles id
      (fun w => { w with current_mileage := m }) rfl (fun w => rfl)]
    have hv' : db.vehicles.find? (fun x => x.id == id) = some v := hv
    rw [hv']
    rfl

def c10Vehicle : Vehicle :=
  { id := 10, daily_rate := 50, current_mileage := 1000,
    last_maintenance_mileage := 0, status := .available, is_active := true }

def c10Db : DB :=
  { customers := [], vehicles := [c10Vehicle],
    rentals := [], maintenances := [] }

/-- C10 witness: lowering the stored mileage 1000 to 999 is rejected with
the database unchanged, while raising it to 1500 succeeds and stores
1500. -/
theorem updateMileage_monotone_witness :
    updateMileage c10Db 10 999 =
      (.clientError "El kilometraje no puede ser menor al actual", c10Db) ∧
    (updateMileage c10Db 10 1500).1 = .ok () ∧
    (findVehicle (updateMileage c10Db 10 1500).2 10).map
      Vehicle.current_mileage = some 1500 := by
  have h := updateMileage_monotone c10Db 10 c10Vehicle rfl
  exact ⟨h.1 999 (by decide), (h.2.1 1500 (by decide)).1,
    (h.2.1 1500 (by decide)).2⟩

/-! Claim C9. -/

theorem maintenanceBeforeUpdate_id (m : Maintenance) (t : Int) :
    (maintenanceBeforeUpdate m t).id = m.id := by
  unfold maintenanceBeforeUpdate
  split
  · rfl
  · split
    · rfl
    · rfl

theorem maintenanceBeforeUpdate_spec (m : Maintenance) (t : Int) :
    ((maintenanceBeforeUpdate m t).completed_date.isSome = true →
      (maintenanceBeforeUpdate m t).status = MStatus.completed) ∧
    ¬ ((maintenanceBeforeUpdate m t).status = MStatus.scheduled ∧
      (maintenanceBeforeUpdate m t).scheduled_date < t) := by
  unfold maintenanceBeforeUpdate
  by_cases h1 : m.completed_date.isSome
  · rw [if_pos h1]
    exact ⟨fun _ => rfl, by rintro ⟨hs, -⟩; simp at hs⟩
  · rw [if_neg h1]
    by_cases h2 : m.scheduled_date < t ∧ m.status = MStatus.scheduled
    · rw [if_pos h2]
      constructor
      · intro hc
        exact absurd hc h1
      · rintro ⟨hs, -⟩
        simp at hs
    · rw [if_neg h2]
      constructor
      · intro hc
        exact absurd hc h1
      · rintro ⟨hs, hlt⟩
        exact h2 ⟨hlt, hs⟩

def c9Vehicle : Vehicle :=
  { id := 10, daily_rate := 50, current_mileage := 1000,
    last_maintenance_mileage := 0, status := .available, is_active := true }

def c9Db : DB :=
  { customers := [], vehicles := [c9Vehicle],
    rentals := [], maintenances := [] }

def c9Req : CreateMaintenanceReq :=
  { vehicle_id := 10, scheduled_date := 0, status := none, priority := none }

/-- C9 counterexample: a maintenance record created through
createMaintenance with a scheduled date already in the past (scheduled
at time 0, while the clock reads one day later) persists in the store
with status scheduled: the beforeUpdate hook runs only on updates, never
at creation nor on mere passage of time, so a reachable record does
exist whose status is scheduled while its scheduled date is past. -/
theorem maintenance_overdue_not_enforced_at_rest_cex :
    (createMaintenance c9Db c9Req 1).2.maintenances.map
      (fun m => (m.status, decide (m.scheduled_date < 86400000))) =
      [(MStatus.scheduled, true)] := by decide

/-- C9 amended: the overdue and completed adjustments are enforced by the
beforeUpdate hook, hence hold of the stored row right after any
updateMaintenance: the row cannot carry a completion date with a status
other than completed, nor be scheduled with a scheduled date strictly
before the update time; records never updated (for example created with
a past scheduled date, or whose scheduled date passes while they rest)
are not adjusted. -/
theorem updateMaintenance_hook_invariant (db : DB) (id : Nat)
    (req : UpdateMaintenanceReq) (now : Int) (m' : Maintenance)
    (hfound : findMaintenance (updateMaintenance db id req now).2 id = some m') :
    (m'.completed_date.isSome = true → m'.status = MStatus.completed) ∧
    ¬ (m'.status = MStatus.scheduled ∧ m'.scheduled_date < now) := by
  cases hm : findMaintenance db id with
  | none =>
    have hdb : (updateMaintenance db id req now).2 = db := by
      unfold updateMaintenance
      simp only [hm]
    rw [hdb, hm] at hfound
    cases hfound
  | some m =>
    have hmm : (updateMaintenance db id req now).2.maintenances =
        updateMaintenanceRow db.maintenances id
          (fun x => maintenanceBeforeUpdate (patchMaintenance x req now) now) := by
      unfold updateMaintenance
      simp only [hm]
    rw [findMaintenance_updateMaintenanceRow _ db.maintenances id
      (fun x => maintenanceBeforeUpdate (patchMaintenance x req now) now) hmm
      (fun x => maintenanceBeforeUpdate_id _ _)] at hfound
    have hm' : db.maintenances.find? (fun x => x.id == id) = some m := hm
    rw [hm'] at hfound
    have heq : m' = maintenanceBeforeUpdate (patchMaintenance m req now) now :=
      (Option.some.inj hfound).symm
    rw [heq]
    exact maintenanceBeforeUpdate_spec (patchMaintenance m req now) now

def c9wMaint : Maintenance :=
  { id := 1, vehicle_id := 10, scheduled_date := 0, completed_date := none,
    status := .scheduled, priority := .medium }

def c9wDb : DB :=
  { customers := [], vehicles := [c9Vehicle],
    rentals := [], maintenances := [c9wMaint] }

def c9wReq : UpdateMaintenanceReq :=
  { status := none, scheduled_date := none, mileage_at_maintenance := none }

def c9wAfter : Maintenance :=
  maintenanceBeforeUpdate (patchMaintenance c9wMaint c9wReq 86400000) 86400000

/-- C9 witness: updating a scheduled maintenance whose scheduled date has
passed flips it to overdue through the hook, and the stored row then
satisfies the adjusted invariant. -/
theorem updateMaintenance_hook_invariant_witness :
    findMaintenance (updateMaintenance c9wDb 1 c9wReq 86400000).2 1 =
      some c9wAfter ∧
    c9wAfter.status = MStatus.overdue ∧
    ¬ (c9wAfter.status = MStatus.scheduled ∧ c9wAfter.scheduled_date < 86400000) := by
  have hf : findMaintenance (updateMaintenance c9wDb 1 c9wReq 86400000).2 1 =
      some c9wAfter := by decide
  exact ⟨hf, by decide,
    (updateMaintenance_hook_invariant c9wDb 1 c9wReq 86400000 c9wAfter hf).2⟩

/-! Claim C4. -/

/-- Forward-move relation on rental statuses: stay put, move right along
reserved, confirmed, active, completed, or move to cancelled from a
non-terminal state. -/
def forwardMove : RStatus → RStatus → Bool
  | .reserved, .reserved => true
  | .reserved, .confirmed => true
  | .reserved, .active => true
  | .reserved, .completed => true
  | .reserved, .cancelled => true
  | .confirmed, .confirmed => true
  | .confirmed, .active => true
  | .confirmed, .completed => true
  | .confirmed, .cancelled => true
  | .active, .active => true
  | .active, .completed => true
  | .active, .cancelled => true
  | .completed, .completed => true
  | .cancelled, .cancelled => true
  | _, _ => false

/-- Pointwise correspondence between the rentals table before and after
an operation: same rows in the same order, each keeping its id and
moving its status only forward. -/
def rentalsForward (old new : List Rental) : Prop :=
  List.Forall₂
    (fun a b => a.id = b.id ∧ forwardMove a.rental_status b.rental_status = true)
    old new

theorem forwardMove_refl (s : RStatus) : forwardMove s s = true := by
  cases s <;> rfl

theorem rentalsForward_refl (rs : List Rental) : rentalsForward rs rs := by
  rw [rentalsForward, List.forall₂_same]
  exact fun x _ => ⟨rfl, forwardMove_refl _⟩

theorem rentalsForward_map (rs : List Rental) (f : Rental → Rental)
    (hf : ∀ x ∈ rs, x.id = (f x).id ∧
      forwardMove x.rental_status (f x).rental_status = true) :
    rentalsForward rs (rs.map f) := by
  rw [rentalsForward, List.forall₂_map_right_iff, List.forall₂_same]
  exact hf

def c4Rental : Rental :=
  { id := 1, customer_id := 1, vehicle_id := 10,
    start_date := 0, end_date := 4 * 86400000,
    actual_return_date := none, daily_rate := 50, total_days := 4,
    subtotal := 200, tax_amount := 38, additional_charges := 0,
    discount_amount := 0, total_amount := 238, rental_status := .active,
    pickup_mileage := none, return_mileage := none }

def c4Db : DB :=
  { customers := [], vehicles := [],
    rentals := [c4Rental], maintenances := [] }

/-- C4 counterexample: updateRental accepts a rental_status patch, so on
an active rental it can set the status back to reserved, an earlier
status, and the operation succeeds; the claim that no API operation
moves a rental from a later status back to an earlier one therefore
fails on updateRental. -/
theorem updateRental_backward_cex :
    (findRental c4Db 1).map Rental.rental_status = some RStatus.active ∧
    ((updateRental c4Db 1 { rental_status := some RStatus.reserved }).2.rentals.map
      Rental.rental_status) = [RStatus.reserved] ∧
    forwardMove RStatus.active RStatus.reserved = false := by decide

/-- C4 amended: startRental, completeRental and cancelRental move every
rental status only forward along reserved, confirmed, active, completed,
with cancellation from a non-terminal state (on a table with distinct
ids); all five operations leave a completed or cancelled rental frozen,
updateRental included; and createRental only adds rentals with status
reserved, leaving existing rows untouched. updateRental, however, may
set a non-terminal rental to any status, including an earlier one, as
the counterexample shows. -/
theorem rental_lifecycle_forward :
    (∀ db id pm, db.rentals.Pairwise (fun a b => a.id ≠ b.id) →
      rentalsForward db.rentals (startRental db id pm).2.rentals) ∧
    (∀ db id req now, db.rentals.Pairwise (fun a b => a.id ≠ b.id) →
      rentalsForward db.rentals (completeRental db id req now).2.rentals) ∧
    (∀ db id, db.rentals.Pairwise (fun a b => a.id ≠ b.id) →
      rentalsForward db.rentals (cancelRental db id).2.rentals) ∧
    (∀ db id req r, findRental db id = some r →
      r.rental_status = RStatus.completed ∨ r.rental_status = RStatus.cancelled →
      (updateRental db id req).2 = db ∧
      (cancelRental db id).2 = db ∧
      (∀ creq now, (completeRental db id creq now).2 = db) ∧
      (∀ pm, (startRental db id pm).2 = db)) ∧
    (∀ db req newId r, r ∈ (createRental db req newId).2.rentals →
      r ∈ db.rentals ∨ r.rental_status = RStatus.reserved) := by
  refine ⟨?start, ?complete, ?cancel, ?terminal, ?create⟩
  case start =>
    intro db id pm hnodup
    cases hf : findRental db id with
    | none =>
      have hdb : (startRental db id pm).2 = db := by
        unfold startRental
        simp only [hf]
      rw [hdb]
      exact rentalsForward_refl _
    | some r =>
      by_cases hst : r.rental_status = RStatus.confirmed
      · have hres : (startRental db id pm).2.rentals =
            updateRentalRow db.rentals id
              (fun x => { x with
                rental_status := RStatus.active, pickup_mileage := pm }) := by
          unfold startRental
          simp only [hf]
          rw [if_neg (by simp [hst])]
        rw [hres, updateRentalRow]
        apply rentalsForward_map
        intro x hx
        by_cases hxid : x.id = id
        · rw [if_pos (by simpa using hxid)]
          refine ⟨rfl, ?_⟩
          have hxr : x = r :=
            find?_key_unique Rental.id db.rentals id r hf hnodup x hx hxid
          rw [hxr, hst]
          rfl
        · rw [if_neg (by simpa using hxid)]
          exact ⟨rfl, forwardMove_refl _⟩
      · have hdb : (startRental db id pm).2 = db := by
          unfold startRental
          simp only [hf]
          rw [if_pos hst]
        rw [hdb]
        exact rentalsForward_refl _
  case complete =>
    intro db id req now hnodup
    cases hf : findRental db id with
    | none =>
      have hdb : (completeRental db id req now).2 = db := by
        unfold completeRental
        simp only [hf]
      rw [hdb]
      exact rentalsForward_refl _
    | some r =>
      by_cases hst : r.rental_status = RStatus.active
      · by_cases hval : rentalValid (completeRentalPatch req now r r) = true
        · have hres : (completeRental db id req now).2.rentals =
              updateRentalRow db.rentals id (completeRentalPatch req now r) := by
            unfold completeRental
            simp only [hf]
            rw [if_neg (by simp [hst]), if_pos hval]
          rw [hres, updateRentalRow]
          apply rentalsForward_map
          intro x hx
          by_cases hxid : x.id = id
          · rw [if_pos (by simpa using hxid)]
            refine ⟨rfl, ?_⟩
            have hxr : x = r :=
              find?_key_unique Rental.id db.rentals id r hf hnodup x hx hxid
            rw [hxr, hst]
            rfl
          · rw [if_neg (by simpa using hxid)]
            exact ⟨rfl, forwardMove_refl _⟩
        · have hdb : (completeRental db id req now).2 = db := by
            unfold completeRental
            simp only [hf]
            rw [if_neg (by simp [hst]), if_neg hval]
          rw [hdb]
          exact rentalsForward_refl _
      · have hdb : (completeRental db id req now).2 = db := by
          unfold completeRental
          simp only [hf]
          rw [if_pos hst]
        rw [hdb]
        exact rentalsForward_refl _
  case cancel =>
    intro db id hnodup
    cases hf : findRental db id with
    | none =>
      have hdb : (cancelRental db id).2 = db := by
        unfold cancelRental
        simp only [hf]
      rw [hdb]
      exact rentalsForward_refl _
    | some r =>
      by_cases hst : r.rental_status = RStatus.completed ∨
          r.rental_status = RStatus.cancelled
      · have hdb : (cancelRental db id).2 = db := by
          unfold cancelRental
          simp only [hf]
          rw [if_pos hst]
        rw [hdb]
        exact rentalsForward_refl _
      · have hres : (cancelRental db id).2.rentals =
            updateRentalRow db.rentals id
              (fun x => { x with rental_status := RStatus.cancelled }) := by
          unfold cancelRental
          simp only [hf]
          rw [if_neg hst]
        rw [hres, updateRentalRow]
        apply rentalsForward_map
        intro x hx
        by_cases hxid : x.id = id
        · rw [if_pos (by simpa using hxid)]
          refine ⟨rfl, ?_⟩
          have hxr : x = r :=
            find?_key_unique Rental.id db.rentals id r hf hnodup x hx hxid
          rw [hxr]
          rcases hs : r.rental_status with h | h | h | h | h
          · rfl
          · rfl
          · rfl
          · exact absurd (Or.inl hs) hst
          · exact absurd (Or.inr hs) hst
        · rw [if_neg (by simpa using hxid)]
          exact ⟨rfl, forwardMove_refl _⟩
  case terminal =>
    intro db id req r hf hterm
    refine ⟨?_, ?_, ?_, ?_⟩
    · unfold updateRental
      simp only [hf]
      rw [if_pos hterm]
    · unfold cancelRental
      simp only [hf]
      rw [if_pos hterm]
    · intro creq now
      unfold completeRental
      simp only [hf]
      rw [if_pos (by rcases hterm with h | h <;> simp [h])]
    · intro pm
      unfold startRental
      simp only [hf]
      rw [if_pos (by rcases hterm with h | h <;> simp [h])]
  case create =>
    intro db req newId r hr
    unfold createRental at hr
    split at hr
    · exact Or.inl (by simpa using hr)
    · split at hr
      · exact Or.inl (by simpa using hr)
      · split at hr
        · exact Or.inl (by simpa using hr)
        · split at hr
          · exact Or.inl (by simpa using hr)
          · split at hr
            · exact Or.inl (by simpa using hr)
            · dsimp only at hr
              split at hr
              · simp at hr
                rcases hr with h | h
                · exact Or.inl h
                · rw [h]
                  exact Or.inr rfl
              · exact Or.inl (by simpa using hr)

def c4wRental : Rental :=
  { id := 1, customer_id := 1, vehicle_id := 10,
    start_date := 0, end_date := 4 * 86400000,
    actual_return_date := none, daily_rate := 50, total_days := 4,
    subtotal := 200, tax_amount := 38, additional_charges := 0,
    discount_amount := 0, total_amount := 238, rental_status := .completed,
    pickup_mileage := none, return_mileage := none }

def c4wDb : DB :=
  { customers := [], vehicles := [],
    rentals := [c4wRental], maintenances := [] }

/-- C4 witness: a completed rental is frozen under updateRental, and
cancelRental on a table with distinct ids only moves statuses forward. -/
theorem rental_lifecycle_forward_witness :
    (updateRental c4wDb 1 { rental_status := some RStatus.active }).2 = c4wDb ∧
    rentalsForward c4wDb.rentals (cancelRental c4wDb 1).2.rentals := by
  have h := rental_lifecycle_forward
  exact ⟨(h.2.2.2.1 c4wDb 1 _ c4wRental rfl (Or.inl rfl)).1,
    h.2.2.1 c4wDb 1 (by simp [c4wDb])⟩

end RentAuto
